import Mathlib

/-!
Shallow embedding of `src/actionlib/src/actionlib/multi_goal_action_server.py`
(`MultiGoalActionServer`).

Goals are stored in a store indexed by natural numbers (a fresh index per
submitted goal); a `ServerGoalHandle` is modelled as an `Option Nat`: `none`
is a default-constructed handle holding no goal, `some i` a handle holding
goal `i`.  Handle equality in the Python source is identity / same underlying
goal, which coincides with equality of the held goal index whenever at least
one side holds a goal (the only situations in which the source compares
handles).  Timestamps are naturals, locking is elided (every public operation
of the source runs under the server locks, so operations are modelled as
atomic state transformers).
-/

/-- Modelled from the spec: the goal status values of §3 of the
specification (the `ServerGoalHandle` status machine is not part of
`src/`).  `pending → active → succeeded/aborted/preempted`, or a pending
goal may directly become `rejected` or `recalled`; `preempting` is the
transient sub-state of `active`. -/
inductive GoalStatus
  | pending
  | active
  | preempting
  | succeeded
  | aborted
  | preempted
  | rejected
  | recalled
deriving DecidableEq

/-- `status == GoalStatus.ACTIVE or status == GoalStatus.PREEMPTING`
(the test performed by `MultiGoalActionServer.is_active`). -/
def statusActive : GoalStatus → Bool
  | .active => true
  | .preempting => true
  | _ => false

/-- The whole mutable state of a `MultiGoalActionServer` together with the
store of all goals ever handed to it by the transport.  `statuses i`,
`stamps i` and `texts i` are the status, `GoalID` timestamp and last
status-text of goal `i`; indices `≥ nGoals` are unused. -/
structure SrvState where
  nGoals : Nat
  stamps : Nat → Nat
  statuses : Nat → GoalStatus
  texts : Nat → String
  newGoal : Bool
  preemptRequest : Bool
  newGoalPreemptRequest : Bool
  executionQueue : List Nat
  currentGoal : Option Nat
  nextGoal : Option Nat
  preemptCallbackRegistered : Bool

/-- The state built by `MultiGoalActionServer.__init__`: all flags false,
empty execution queue, `current_goal` and `next_goal` are
default-constructed handles holding no goal. -/
def initState : SrvState where
  nGoals := 0
  stamps := fun _ => 0
  statuses := fun _ => GoalStatus.pending
  texts := fun _ => ""
  newGoal := false
  preemptRequest := false
  newGoalPreemptRequest := false
  executionQueue := []
  currentGoal := none
  nextGoal := none
  preemptCallbackRegistered := false

/-- Overwrite status and status-text of goal `i`. -/
def setStatusText (s : SrvState) (i : Nat) (st : GoalStatus) (text : String) :
    SrvState :=
  { s with statuses := fun j => if j = i then st else s.statuses j,
           texts := fun j => if j = i then text else s.texts j }

/-- Apply a partial status transition `f` to the goal held by handle `h`
(if any): when `f` allows the transition, the new status and the text are
recorded; otherwise (empty handle, or a status - e.g. an already terminal
one - from which `f` allows no move) the state is unchanged. -/
def applyTransition (f : GoalStatus → Option GoalStatus) (s : SrvState)
    (h : Option Nat) (text : String) : SrvState :=
  match h with
  | none => s
  | some i =>
    match f (s.statuses i) with
    | none => s
    | some st => setStatusText s i st text

/-- Modelled from the spec: the status moves performed by
`ServerGoalHandle.set_canceled` (not in `src/`), per §3: a pending goal
becomes `recalled`, an active/preempting goal becomes `preempted`; a
terminal status never changes again. -/
def cancelTrans : GoalStatus → Option GoalStatus
  | .pending => some .recalled
  | .active => some .preempted
  | .preempting => some .preempted
  | _ => none

/-- Modelled from the spec: `ServerGoalHandle.set_accepted` (not in
`src/`) makes a pending goal `active`; on any other status it is refused. -/
def acceptTrans : GoalStatus → Option GoalStatus
  | .pending => some .active
  | _ => none

/-- Modelled from the spec: `ServerGoalHandle.set_succeeded` (not in
`src/`) makes an active/preempting goal `succeeded`. -/
def succeedTrans : GoalStatus → Option GoalStatus
  | .active => some .succeeded
  | .preempting => some .succeeded
  | _ => none

/-- Modelled from the spec: `ServerGoalHandle.set_aborted` (not in
`src/`) makes an active/preempting goal `aborted`. -/
def abortTrans : GoalStatus → Option GoalStatus
  | .active => some .aborted
  | .preempting => some .aborted
  | _ => none

/-- Modelled from the spec: `ServerGoalHandle.set_rejected` (not in
`src/`) makes a pending goal `rejected`. -/
def rejectTrans : GoalStatus → Option GoalStatus
  | .pending => some .rejected
  | _ => none

namespace ServerGoalHandle

/-- Modelled from the spec: `ServerGoalHandle.set_canceled(result, text)`.
The result payload is carried but not stored (the model does not track
result publication). -/
def set_canceled {Res : Type} (s : SrvState) (h : Option Nat)
    (_result : Option Res) (text : String) : SrvState :=
  applyTransition cancelTrans s h text

/-- Modelled from the spec: `ServerGoalHandle.set_accepted(text)`. -/
def set_accepted (s : SrvState) (h : Option Nat) (text : String) : SrvState :=
  applyTransition acceptTrans s h text

/-- Modelled from the spec: `ServerGoalHandle.set_succeeded(result, text)`. -/
def set_succeeded {Res : Type} (s : SrvState) (h : Option Nat)
    (_result : Option Res) (text : String) : SrvState :=
  applyTransition succeedTrans s h text

/-- Modelled from the spec: `ServerGoalHandle.set_aborted(result, text)`. -/
def set_aborted {Res : Type} (s : SrvState) (h : Option Nat)
    (_result : Option Res) (text : String) : SrvState :=
  applyTransition abortTrans s h text

/-- Modelled from the spec: `ServerGoalHandle.set_rejected(result, text)`. -/
def set_rejected {Res : Type} (s : SrvState) (h : Option Nat)
    (_result : Option Res) (text : String) : SrvState :=
  applyTransition rejectTrans s h text

end ServerGoalHandle

/-- `h.get_goal_id().stamp` for a handle holding a goal (only consulted by
the source under a guard that the handle holds a goal). -/
def handleStamp (s : SrvState) (h : Option Nat) : Nat :=
  match h with
  | none => 0
  | some i => s.stamps i

namespace MultiGoalActionServer

/-- `MultiGoalActionServer.is_active` (lines 138-143): true iff the current
handle holds a goal whose status is `ACTIVE` or `PREEMPTING`. -/
def is_active (s : SrvState) : Bool :=
  match s.currentGoal with
  | none => false
  | some i => statusActive (s.statuses i)

/-- `MultiGoalActionServer.is_new_goal_available` (line 128). -/
def is_new_goal_available (s : SrvState) : Bool :=
  s.newGoal

/-- `MultiGoalActionServer.is_preempt_requested` (line 133). -/
def is_preempt_requested (s : SrvState) : Bool :=
  s.preemptRequest

/-- Lines 92-95 of `accept_new_goal`: cancel the currently pursued goal if
it is active, holds a goal and is not the handle about to be accepted. -/
def accept_cancel_step (s : SrvState) : SrvState :=
  if is_active s = true ∧ s.currentGoal.isSome = true ∧
      s.currentGoal ≠ s.nextGoal then
    ServerGoalHandle.set_canceled s s.currentGoal (none : Option PUnit)
      "This goal was canceled because another goal was received by the simple action server"
  else s

/-- Lines 98-104 of `accept_new_goal`: make the next goal current, clear
`new_goal`, and move `new_goal_preempt_request` into `preempt_request`. -/
def accept_promote (s : SrvState) : SrvState :=
  { s with currentGoal := s.nextGoal,
           newGoal := false,
           preemptRequest := s.newGoalPreemptRequest,
           newGoalPreemptRequest := false }

/-- `MultiGoalActionServer.accept_new_goal` (lines 86-110).  When no new
goal is available (flag unset or empty next handle) it logs an error and
returns without touching anything; otherwise it cancels a distinct active
current goal, promotes the next handle and sets it accepted. -/
def accept_new_goal (s : SrvState) : SrvState :=
  if s.newGoal = false ∨ s.nextGoal = none then s
  else
    ServerGoalHandle.set_accepted (accept_promote (accept_cancel_step s))
      (accept_promote (accept_cancel_step s)).currentGoal
      "This goal has been accepted by the simple action server"

/-- `MultiGoalActionServer.get_next_goal` (lines 112-124).  If the
execution queue is non-empty: load its head into the next slot, raise
`new_goal`, clear `new_goal_preempt_request`, run `accept_new_goal`, then
pop the queue.  Returns the goal held by the current handle. -/
def get_next_goal (s : SrvState) : SrvState × Option Nat :=
  match s.executionQueue with
  | [] => (s, s.currentGoal)
  | g :: _ =>
    let s2 := accept_new_goal
      { s with nextGoal := some g, newGoal := true,
               newGoalPreemptRequest := false }
    let s3 := { s2 with executionQueue := s2.executionQueue.tail }
    (s3, s3.currentGoal)

/-- `MultiGoalActionServer.get_default_result` (line 168):
`self.action_server.ActionResultType()`, a freshly default-constructed
result of the action's result type. -/
def get_default_result {Res : Type} [Inhabited Res] (_s : SrvState) : Res :=
  default

/-- `MultiGoalActionServer.reject_all` (lines 184-189): set every queued
goal rejected (head first), draining the queue. -/
def reject_all (s : SrvState) (text : String) : SrvState :=
  let s1 := s.executionQueue.foldl
    (fun st i =>
      ServerGoalHandle.set_rejected st (some i) (none : Option PUnit) text) s
  { s1 with executionQueue := [] }

/-- `MultiGoalActionServer.cancel_all` (lines 193-198): set every queued
goal canceled (head first), draining the queue. -/
def cancel_all (s : SrvState) (text : String) : SrvState :=
  let s1 := s.executionQueue.foldl
    (fun st i =>
      ServerGoalHandle.set_canceled st (some i) (none : Option PUnit) text) s
  { s1 with executionQueue := [] }

/-- The `if not result: result = self.get_default_result()` substitution
performed by `set_succeeded` / `set_aborted` / `set_preempted`. -/
def resolveResult {Res : Type} [Inhabited Res] (s : SrvState)
    (result : Option Res) : Option Res :=
  match result with
  | none => some (get_default_result s)
  | some x => some x

/-- `MultiGoalActionServer.set_succeeded` (lines 147-151).  The second
component is the result value actually passed to the goal handle's
`set_succeeded` (after the `if not result` substitution). -/
def set_succeeded {Res : Type} [Inhabited Res] (s : SrvState)
    (result : Option Res) (text : String) : SrvState × Option Res :=
  (ServerGoalHandle.set_succeeded s s.currentGoal (resolveResult s result)
    text, resolveResult s result)

/-- `MultiGoalActionServer.set_aborted` (lines 155-161): abort the current
goal, then reject every goal in the execution queue.  The second component
is the result value passed to the handle. -/
def set_aborted {Res : Type} [Inhabited Res] (s : SrvState)
    (result : Option Res) (text : String) : SrvState × Option Res :=
  (reject_all
    (ServerGoalHandle.set_aborted s s.currentGoal (resolveResult s result)
      text)
    "This goal was rejected and cleared from the execution queue.",
   resolveResult s result)

/-- `MultiGoalActionServer.set_preempted` (lines 173-180): cancel the
current goal, then cancel every goal in the execution queue.  The second
component is the result value passed to the handle. -/
def set_preempted {Res : Type} [Inhabited Res] (s : SrvState)
    (result : Option Res) (text : String) : SrvState × Option Res :=
  (cancel_all
    (ServerGoalHandle.set_canceled s s.currentGoal (resolveResult s result)
      text)
    "This goal was rejected and cleared from the execution queue.",
   resolveResult s result)

/-- `MultiGoalActionServer.get_queue_size` (line 209). -/
def get_queue_size (s : SrvState) : Nat :=
  s.executionQueue.length

/-- The admissibility test of `internal_goal_callback` (lines 229-230): the
incoming stamp is not older than the current goal's stamp (if the current
handle holds a goal) nor than the next handle's stamp (if it holds one). -/
def admissible (s : SrvState) (stamp : Nat) : Prop :=
  (s.currentGoal = none ∨ stamp ≥ handleStamp s s.currentGoal) ∧
  (s.nextGoal = none ∨ stamp ≥ handleStamp s s.nextGoal)

instance (s : SrvState) (stamp : Nat) : Decidable (admissible s stamp) := by
  unfold admissible
  infer_instance

/-- Modelled from the spec: the Transport Adapter (not in `src/`)
constructs a fresh pending goal handle, with the submission timestamp in
its `GoalID`, before invoking the goal callback; the fresh goal gets store
index `s.nGoals`. -/
def submitFresh (s : SrvState) (stamp : Nat) : SrvState :=
  { s with nGoals := s.nGoals + 1,
           stamps := fun j => if j = s.nGoals then stamp else s.stamps j,
           statuses := fun j => if j = s.nGoals then .pending else s.statuses j,
           texts := fun j => if j = s.nGoals then "" else s.texts j }

/-- `MultiGoalActionServer.internal_goal_callback` (lines 222-249), invoked
on the fresh handle built by `submitFresh`: the goal is appended to the
execution queue when its stamp is not older than the current goal's and
the next goal's, and immediately cancelled otherwise. -/
def internal_goal_callback (s : SrvState) (stamp : Nat) : SrvState :=
  if admissible (submitFresh s stamp) stamp then
    { submitFresh s stamp with
        executionQueue := (submitFresh s stamp).executionQueue ++ [s.nGoals] }
  else
    ServerGoalHandle.set_canceled (submitFresh s stamp) (some s.nGoals)
      (none : Option PUnit)
      "This goal was canceled because another goal was received by the simple action server"

/-- `MultiGoalActionServer.internal_preempt_callback` (lines 252-267).  The
inbound preempt handle holds goal `preempt`.  The boolean result observes
whether the registered user preempt callback was invoked by the call. -/
def internal_preempt_callback (s : SrvState) (preempt : Nat) :
    SrvState × Bool :=
  if s.currentGoal = some preempt then
    ({ s with preemptRequest := true }, s.preemptCallbackRegistered)
  else if s.nextGoal = some preempt then
    ({ s with newGoalPreemptRequest := true }, false)
  else (s, false)

/-- One pass of the body of `MultiGoalActionServer.executeLoop`
(lines 287-305), after the busy-wait: promote the next queued goal, and if
a goal is then active run the user execute callback.  The callback is
modelled as a state transformer that may in addition raise an exception,
reported as `some message`; the `try/except` of the loop converts a raised
exception into `set_aborted`, and a callback that returns with the goal
still active is also forcibly aborted.  The second component of the result
is the exception escaping the loop body (always `none`: the loop never
crashes). -/
def executeLoopBody (cb : SrvState → Option Nat → SrvState × Option String)
    (s : SrvState) : SrvState × Option String :=
  if is_active (get_next_goal s).1 = true then
    match cb (get_next_goal s).1 (get_next_goal s).2 with
    | (s2, some msg) =>
      ((set_aborted s2 (none : Option PUnit)
          ("Exception in execute callback: " ++ msg)).1, none)
    | (s2, none) =>
      if is_active s2 = true then
        ((set_aborted s2 (none : Option PUnit) "No terminal state was set.").1,
          none)
      else (s2, none)
  else ((get_next_goal s).1, none)

end MultiGoalActionServer

open MultiGoalActionServer

/-- The fold performed by `reject_all` / `cancel_all`: apply one handle
transition to every listed goal, head first. -/
def drainFold (f : GoalStatus → Option GoalStatus) (text : String)
    (l : List Nat) (s : SrvState) : SrvState :=
  l.foldl (fun st i => applyTransition f st (some i) text) s

/-- A concrete server state with one pending goal (index 0, stamp 0)
sitting in the execution queue and no current goal. -/
def stateQ : SrvState :=
  { initState with nGoals := 1, executionQueue := [0] }

/-- `stateQ` with the next-goal preempt flag raised. -/
def stateQP : SrvState :=
  { stateQ with newGoalPreemptRequest := true }

/-- A concrete server state in which goal 1 (stamp 5) is current and
active, goal 0 (stamp 0) is pending in the execution queue, and a user
preempt callback is registered. -/
def stateB : SrvState :=
  { initState with
      nGoals := 2,
      executionQueue := [0],
      currentGoal := some 1,
      stamps := fun j => if j = 1 then 5 else 0,
      statuses := fun j => if j = 1 then .active else .pending,
      preemptCallbackRegistered := true }

/-- Single-active invariant: every goal whose status is `ACTIVE` or
`PREEMPTING` is the goal held by the current-goal handle (hence there is
at most one such goal). -/
def UniqueActive (s : SrvState) : Prop :=
  ∀ i, statusActive (s.statuses i) = true → s.currentGoal = some i

/-- The states reachable from the freshly constructed server by any
sequence of goal submissions, preempt requests, promotions and
terminal-status operations. -/
inductive Reachable : SrvState → Prop
  | init : Reachable initState
  | submit {s : SrvState} (stamp : Nat) :
      Reachable s → Reachable (internal_goal_callback s stamp)
  | preempt {s : SrvState} (j : Nat) :
      Reachable s → Reachable (internal_preempt_callback s j).1
  | promote {s : SrvState} :
      Reachable s → Reachable (get_next_goal s).1
  | accept {s : SrvState} :
      Reachable s → Reachable (accept_new_goal s)
  | succeed {s : SrvState} (r : Option PUnit) (text : String) :
      Reachable s → Reachable (set_succeeded s r text).1
  | abort {s : SrvState} (r : Option PUnit) (text : String) :
      Reachable s → Reachable (set_aborted s r text).1
  | preempted_op {s : SrvState} (r : Option PUnit) (text : String) :
      Reachable s → Reachable (set_preempted s r text).1

/-! ### Basic lemmas about the goal-handle transition layer -/

lemma applyTransition_cases (f : GoalStatus → Option GoalStatus) (s : SrvState)
    (h : Option Nat) (text : String) :
    applyTransition f s h text = s ∨
    ∃ i st, h = some i ∧ f (s.statuses i) = some st ∧
      applyTransition f s h text = setStatusText s i st text := by
  cases h with
  | none => exact Or.inl rfl
  | some i =>
    cases hf : f (s.statuses i) with
    | none => exact Or.inl (by simp [applyTransition, hf])
    | some st => exact Or.inr ⟨i, st, rfl, hf, by simp [applyTransition, hf]⟩

@[simp] lemma applyTransition_executionQueue (f s h text) :
    (applyTransition f s h text).executionQueue = s.executionQueue := by
  rcases applyTransition_cases f s h text with he | ⟨i, st, _, _, he⟩ <;>
    rw [he] <;> rfl

@[simp] lemma applyTransition_currentGoal (f s h text) :
    (applyTransition f s h text).currentGoal = s.currentGoal := by
  rcases applyTransition_cases f s h text with he | ⟨i, st, _, _, he⟩ <;>
    rw [he] <;> rfl

@[simp] lemma applyTransition_nextGoal (f s h text) :
    (applyTransition f s h text).nextGoal = s.nextGoal := by
  rcases applyTransition_cases f s h text with he | ⟨i, st, _, _, he⟩ <;>
    rw [he] <;> rfl

@[simp] lemma applyTransition_newGoal (f s h text) :
    (applyTransition f s h text).newGoal = s.newGoal := by
  rcases applyTransition_cases f s h text with he | ⟨i, st, _, _, he⟩ <;>
    rw [he] <;> rfl

@[simp] lemma applyTransition_preemptRequest (f s h text) :
    (applyTransition f s h text).preemptRequest = s.preemptRequest := by
  rcases applyTransition_cases f s h text with he | ⟨i, st, _, _, he⟩ <;>
    rw [he] <;> rfl

@[simp] lemma applyTransition_newGoalPreemptRequest (f s h text) :
    (applyTransition f s h text).newGoalPreemptRequest =
      s.newGoalPreemptRequest := by
  rcases applyTransition_cases f s h text with he | ⟨i, st, _, _, he⟩ <;>
    rw [he] <;> rfl

@[simp] lemma applyTransition_nGoals (f s h text) :
    (applyTransition f s h text).nGoals = s.nGoals := by
  rcases applyTransition_cases f s h text with he | ⟨i, st, _, _, he⟩ <;>
    rw [he] <;> rfl

@[simp] lemma applyTransition_stamps (f s h text) :
    (applyTransition f s h text).stamps = s.stamps := by
  rcases applyTransition_cases f s h text with he | ⟨i, st, _, _, he⟩ <;>
    rw [he] <;> rfl

@[simp] lemma applyTransition_preemptCallbackRegistered (f s h text) :
    (applyTransition f s h text).preemptCallbackRegistered =
      s.preemptCallbackRegistered := by
  rcases applyTransition_cases f s h text with he | ⟨i, st, _, _, he⟩ <;>
    rw [he] <;> rfl

lemma applyTransition_statuses_of_ne (f : GoalStatus → Option GoalStatus)
    (s : SrvState) (j : Nat) (text : String) (i : Nat) (hij : i ≠ j) :
    (applyTransition f s (some j) text).statuses i = s.statuses i := by
  cases hf : f (s.statuses j) with
  | none => simp [applyTransition, hf]
  | some st => simp [applyTransition, hf, setStatusText, hij]

lemma applyTransition_statuses_self_of_none {f : GoalStatus → Option GoalStatus}
    {s : SrvState} {j : Nat} {text : String} (hf : f (s.statuses j) = none) :
    (applyTransition f s (some j) text).statuses j = s.statuses j := by
  simp [applyTransition, hf]

lemma applyTransition_statuses_self_of_some {f : GoalStatus → Option GoalStatus}
    {s : SrvState} {j : Nat} {st : GoalStatus} {text : String}
    (hf : f (s.statuses j) = some st) :
    (applyTransition f s (some j) text).statuses j = st := by
  simp [applyTransition, hf, setStatusText]

lemma applyTransition_texts_of_ne (f : GoalStatus → Option GoalStatus)
    (s : SrvState) (j : Nat) (text : String) (i : Nat) (hij : i ≠ j) :
    (applyTransition f s (some j) text).texts i = s.texts i := by
  cases hf : f (s.statuses j) with
  | none => simp [applyTransition, hf]
  | some st => simp [applyTransition, hf, setStatusText, hij]

lemma applyTransition_texts_self_of_none {f : GoalStatus → Option GoalStatus}
    {s : SrvState} {j : Nat} {text : String} (hf : f (s.statuses j) = none) :
    (applyTransition f s (some j) text).texts j = s.texts j := by
  simp [applyTransition, hf]

lemma applyTransition_texts_self_of_some {f : GoalStatus → Option GoalStatus}
    {s : SrvState} {j : Nat} {st : GoalStatus} {text : String}
    (hf : f (s.statuses j) = some st) :
    (applyTransition f s (some j) text).texts j = text := by
  simp [applyTransition, hf, setStatusText]

/-- A transition function that never produces an active status cannot make
`statusActive` become true at any index. -/
lemma statusActive_of_applyTransition {f : GoalStatus → Option GoalStatus}
    (hf : ∀ a b, f a = some b → statusActive b = false)
    {s : SrvState} {h : Option Nat} {text : String} {i : Nat}
    (hact : statusActive ((applyTransition f s h text).statuses i) = true) :
    statusActive (s.statuses i) = true := by
  cases h with
  | none => exact hact
  | some j =>
    by_cases hij : i = j
    · subst hij
      cases hf2 : f (s.statuses i) with
      | none => rwa [applyTransition_statuses_self_of_none hf2] at hact
      | some st =>
        rw [applyTransition_statuses_self_of_some hf2] at hact
        rw [hf _ _ hf2] at hact
        exact absurd hact (by simp)
    · rwa [applyTransition_statuses_of_ne f s j text i hij] at hact

lemma cancelTrans_not_active : ∀ a b, cancelTrans a = some b →
    statusActive b = false := by
  intro a b hab
  cases a <;> simp [cancelTrans] at hab <;> simp [← hab, statusActive]

lemma succeedTrans_not_active : ∀ a b, succeedTrans a = some b →
    statusActive b = false := by
  intro a b hab
  cases a <;> simp [succeedTrans] at hab <;> simp [← hab, statusActive]

lemma abortTrans_not_active : ∀ a b, abortTrans a = some b →
    statusActive b = false := by
  intro a b hab
  cases a <;> simp [abortTrans] at hab <;> simp [← hab, statusActive]

lemma rejectTrans_not_active : ∀ a b, rejectTrans a = some b →
    statusActive b = false := by
  intro a b hab
  cases a <;> simp [rejectTrans] at hab <;> simp [← hab, statusActive]

/-! ### Lemmas about queue-draining folds -/

lemma reject_all_eq_drainFold (s : SrvState) (text : String) :
    MultiGoalActionServer.reject_all s text =
      { drainFold rejectTrans text s.executionQueue s with
          executionQueue := [] } := rfl

lemma cancel_all_eq_drainFold (s : SrvState) (text : String) :
    MultiGoalActionServer.cancel_all s text =
      { drainFold cancelTrans text s.executionQueue s with
          executionQueue := [] } := rfl

lemma drainFold_cons (f text) (a : Nat) (l : List Nat) (s : SrvState) :
    drainFold f text (a :: l) s =
      drainFold f text l (applyTransition f s (some a) text) := rfl

lemma drainFold_frame {α : Type} (f : GoalStatus → Option GoalStatus)
    (text : String) (g : SrvState → α)
    (hg : ∀ (st : SrvState) (i : Nat),
      g (applyTransition f st (some i) text) = g st) :
    ∀ (l : List Nat) (s : SrvState), g (drainFold f text l s) = g s := by
  intro l
  induction l with
  | nil => intro s; rfl
  | cons a l ih =>
    intro s
    rw [drainFold_cons, ih, hg]

@[simp] lemma drainFold_currentGoal (f text l s) :
    (drainFold f text l s).currentGoal = s.currentGoal :=
  drainFold_frame f text (fun st => st.currentGoal) (by simp) l s

@[simp] lemma drainFold_nextGoal (f text l s) :
    (drainFold f text l s).nextGoal = s.nextGoal :=
  drainFold_frame f text (fun st => st.nextGoal) (by simp) l s

@[simp] lemma drainFold_newGoal (f text l s) :
    (drainFold f text l s).newGoal = s.newGoal :=
  drainFold_frame f text (fun st => st.newGoal) (by simp) l s

@[simp] lemma drainFold_preemptRequest (f text l s) :
    (drainFold f text l s).preemptRequest = s.preemptRequest :=
  drainFold_frame f text (fun st => st.preemptRequest) (by simp) l s

@[simp] lemma drainFold_newGoalPreemptRequest (f text l s) :
    (drainFold f text l s).newGoalPreemptRequest = s.newGoalPreemptRequest :=
  drainFold_frame f text (fun st => st.newGoalPreemptRequest) (by simp) l s

@[simp] lemma drainFold_nGoals (f text l s) :
    (drainFold f text l s).nGoals = s.nGoals :=
  drainFold_frame f text (fun st => st.nGoals) (by simp) l s

@[simp] lemma drainFold_stamps (f text l s) :
    (drainFold f text l s).stamps = s.stamps :=
  drainFold_frame f text (fun st => st.stamps) (by simp) l s

@[simp] lemma drainFold_executionQueue (f text l s) :
    (drainFold f text l s).executionQueue = s.executionQueue :=
  drainFold_frame f text (fun st => st.executionQueue) (by simp) l s

/-- A goal whose status the transition function refuses to move keeps its
status and text across the whole drain fold. -/
lemma drainFold_stable {f : GoalStatus → Option GoalStatus} {v : GoalStatus}
    (hfv : f v = none) (text : String) {i : Nat} :
    ∀ (l : List Nat) (s : SrvState), s.statuses i = v →
      (drainFold f text l s).statuses i = v ∧
      (drainFold f text l s).texts i = s.texts i := by
  intro l
  induction l with
  | nil => intro s hv; exact ⟨hv, rfl⟩
  | cons a l ih =>
    intro s hv
    rw [drainFold_cons]
    by_cases hia : i = a
    · subst hia
      have hst : (applyTransition f s (some i) text).statuses i = v := by
        rw [applyTransition_statuses_self_of_none (by rw [hv]; exact hfv)]
        exact hv
      have htx : (applyTransition f s (some i) text).texts i = s.texts i :=
        applyTransition_texts_self_of_none (by rw [hv]; exact hfv)
      rcases ih _ hst with ⟨h1, h2⟩
      exact ⟨h1, by rw [h2, htx]⟩
    · have hst : (applyTransition f s (some a) text).statuses i = v := by
        rw [applyTransition_statuses_of_ne f s a text i hia]; exact hv
      have htx : (applyTransition f s (some a) text).texts i = s.texts i :=
        applyTransition_texts_of_ne f s a text i hia
      rcases ih _ hst with ⟨h1, h2⟩
      exact ⟨h1, by rw [h2, htx]⟩

/-- Every listed pending goal ends in status `tgt` after the drain fold,
provided the transition sends `pending` to `tgt` and refuses to move a
goal already at `tgt`. -/
lemma drainFold_mem {f : GoalStatus → Option GoalStatus} {tgt : GoalStatus}
    (hf1 : f .pending = some tgt) (hf2 : f tgt = none) (text : String)
    {i : Nat} :
    ∀ (l : List Nat) (s : SrvState), i ∈ l →
      s.statuses i = .pending → (drainFold f text l s).statuses i = tgt := by
  intro l
  induction l with
  | nil => intro s hmem; exact absurd hmem (List.not_mem_nil i)
  | cons a l ih =>
    intro s hmem hv
    rw [drainFold_cons]
    by_cases hia : i = a
    · subst hia
      have hst : (applyTransition f s (some i) text).statuses i = tgt :=
        applyTransition_statuses_self_of_some (by rw [hv]; exact hf1)
      exact (drainFold_stable hf2 text l _ hst).1
    · have hst : (applyTransition f s (some a) text).statuses i = .pending := by
        rw [applyTransition_statuses_of_ne f s a text i hia]; exact hv
      have hmem' : i ∈ l := by
        rcases List.mem_cons.mp hmem with h | h
        · exact absurd h hia
        · exact h
      exact ih _ hmem' hst

lemma drainFold_not_active {f : GoalStatus → Option GoalStatus}
    (hf : ∀ a b, f a = some b → statusActive b = false) (text : String)
    {i : Nat} :
    ∀ (l : List Nat) (s : SrvState),
      statusActive ((drainFold f text l s).statuses i) = true →
      statusActive (s.statuses i) = true := by
  intro l
  induction l with
  | nil => intro s h; exact h
  | cons a l ih =>
    intro s h
    rw [drainFold_cons] at h
    exact statusActive_of_applyTransition hf (ih _ h)

/-! ### Transition-function facts on active statuses -/

lemma cancelTrans_of_active {a : GoalStatus} (h : statusActive a = true) :
    cancelTrans a = some .preempted := by
  cases a <;> simp_all [statusActive, cancelTrans]

lemma succeedTrans_of_active {a : GoalStatus} (h : statusActive a = true) :
    succeedTrans a = some .succeeded := by
  cases a <;> simp_all [statusActive, succeedTrans]

lemma abortTrans_of_active {a : GoalStatus} (h : statusActive a = true) :
    abortTrans a = some .aborted := by
  cases a <;> simp_all [statusActive, abortTrans]

lemma is_active_iff {s : SrvState} :
    is_active s = true ↔
      ∃ c, s.currentGoal = some c ∧ statusActive (s.statuses c) = true := by
  unfold is_active
  cases hc : s.currentGoal <;> simp [hc]

/-! ### Field-level behaviour of the promotion path -/

@[simp] lemma accept_cancel_step_currentGoal (s : SrvState) :
    (accept_cancel_step s).currentGoal = s.currentGoal := by
  unfold accept_cancel_step
  split
  · simp [ServerGoalHandle.set_canceled]
  · rfl

@[simp] lemma accept_cancel_step_nextGoal (s : SrvState) :
    (accept_cancel_step s).nextGoal = s.nextGoal := by
  unfold accept_cancel_step
  split
  · simp [ServerGoalHandle.set_canceled]
  · rfl

@[simp] lemma accept_cancel_step_newGoal (s : SrvState) :
    (accept_cancel_step s).newGoal = s.newGoal := by
  unfold accept_cancel_step
  split
  · simp [ServerGoalHandle.set_canceled]
  · rfl

@[simp] lemma accept_cancel_step_preemptRequest (s : SrvState) :
    (accept_cancel_step s).preemptRequest = s.preemptRequest := by
  unfold accept_cancel_step
  split
  · simp [ServerGoalHandle.set_canceled]
  · rfl

@[simp] lemma accept_cancel_step_newGoalPreemptRequest (s : SrvState) :
    (accept_cancel_step s).newGoalPreemptRequest = s.newGoalPreemptRequest := by
  unfold accept_cancel_step
  split
  · simp [ServerGoalHandle.set_canceled]
  · rfl

@[simp] lemma accept_cancel_step_executionQueue (s : SrvState) :
    (accept_cancel_step s).executionQueue = s.executionQueue := by
  unfold accept_cancel_step
  split
  · simp [ServerGoalHandle.set_canceled]
  · rfl

@[simp] lemma accept_cancel_step_nGoals (s : SrvState) :
    (accept_cancel_step s).nGoals = s.nGoals := by
  unfold accept_cancel_step
  split
  · simp [ServerGoalHandle.set_canceled]
  · rfl

@[simp] lemma accept_cancel_step_stamps (s : SrvState) :
    (accept_cancel_step s).stamps = s.stamps := by
  unfold accept_cancel_step
  split
  · simp [ServerGoalHandle.set_canceled]
  · rfl

/-- The cancel step never touches a goal the current handle does not hold. -/
lemma accept_cancel_step_statuses_of_ne {s : SrvState} {i : Nat}
    (hi : s.currentGoal ≠ some i) :
    (accept_cancel_step s).statuses i = s.statuses i := by
  unfold accept_cancel_step
  split
  · next hcond =>
    rcases hcond with ⟨_, hsome, _⟩
    rcases Option.isSome_iff_exists.mp hsome with ⟨c, hc⟩
    rw [hc]
    show (applyTransition cancelTrans s (some c) _).statuses i = s.statuses i
    refine applyTransition_statuses_of_ne cancelTrans s c _ i ?_
    intro hic
    subst hic
    exact hi hc
  · rfl

/-- When the cancel guard fires, the active current goal is preempted. -/
lemma accept_cancel_step_current {s : SrvState} {c : Nat}
    (hc : s.currentGoal = some c) (hact : is_active s = true)
    (hne : s.currentGoal ≠ s.nextGoal) :
    (accept_cancel_step s).statuses c = .preempted := by
  have hacts : statusActive (s.statuses c) = true := by
    rcases is_active_iff.mp hact with ⟨c', hc', h'⟩
    rw [hc] at hc'
    cases hc'
    exact h'
  unfold accept_cancel_step
  rw [if_pos ⟨hact, by simp [hc], hne⟩, hc]
  show (applyTransition cancelTrans s (some c) _).statuses c = .preempted
  exact applyTransition_statuses_self_of_some (cancelTrans_of_active hacts)

/-- When the cancel guard does not fire, no status changes at all. -/
lemma accept_cancel_step_of_neg {s : SrvState}
    (h : ¬ (is_active s = true ∧ s.currentGoal.isSome = true ∧
        s.currentGoal ≠ s.nextGoal)) :
    accept_cancel_step s = s := by
  unfold accept_cancel_step
  rw [if_neg h]

/-- Field-level description of a successful `accept_new_goal` call. -/
lemma accept_new_goal_fields {s : SrvState} (h1 : s.newGoal = true)
    (h2 : s.nextGoal ≠ none) :
    (accept_new_goal s).currentGoal = s.nextGoal ∧
    (accept_new_goal s).nextGoal = s.nextGoal ∧
    (accept_new_goal s).newGoal = false ∧
    (accept_new_goal s).preemptRequest = s.newGoalPreemptRequest ∧
    (accept_new_goal s).newGoalPreemptRequest = false ∧
    (accept_new_goal s).executionQueue = s.executionQueue ∧
    (accept_new_goal s).nGoals = s.nGoals ∧
    (accept_new_goal s).stamps = s.stamps := by
  unfold accept_new_goal
  rw [if_neg (by simp [h1, h2])]
  simp [ServerGoalHandle.set_accepted, accept_promote]

@[simp] lemma accept_promote_statuses (s : SrvState) :
    (accept_promote s).statuses = s.statuses := rfl

@[simp] lemma accept_promote_texts (s : SrvState) :
    (accept_promote s).texts = s.texts := rfl

@[simp] lemma accept_promote_currentGoal (s : SrvState) :
    (accept_promote s).currentGoal = s.nextGoal := rfl

@[simp] lemma accept_promote_nextGoal (s : SrvState) :
    (accept_promote s).nextGoal = s.nextGoal := rfl

@[simp] lemma accept_promote_executionQueue (s : SrvState) :
    (accept_promote s).executionQueue = s.executionQueue := rfl

lemma set_accepted_statuses_self {s : SrvState} {j : Nat} {text : String}
    (h : s.statuses j = .pending) :
    (ServerGoalHandle.set_accepted s (some j) text).statuses j = .active :=
  applyTransition_statuses_self_of_some (by rw [h]; rfl)

lemma set_accepted_statuses_of_ne {s : SrvState} {j : Nat} {text : String}
    {i : Nat} (hij : i ≠ j) :
    (ServerGoalHandle.set_accepted s (some j) text).statuses i =
      s.statuses i :=
  applyTransition_statuses_of_ne acceptTrans s j text i hij

/-- The cancel step of `accept_new_goal` never touches the goal held by
the next-goal handle (the guard requires current and next to differ). -/
lemma accept_cancel_step_statuses_next {s : SrvState} {n : Nat}
    (hn : s.nextGoal = some n) :
    (accept_cancel_step s).statuses n = s.statuses n := by
  by_cases hc : s.currentGoal = some n
  · have h : ¬ (is_active s = true ∧ s.currentGoal.isSome = true ∧
        s.currentGoal ≠ s.nextGoal) := by
      rintro ⟨-, -, hne⟩
      exact hne (by rw [hc, hn])
    rw [accept_cancel_step_of_neg h]
  · exact accept_cancel_step_statuses_of_ne hc

/-- Status-level description of a successful `accept_new_goal` call: the
pending next goal becomes active, a distinct active current goal becomes
preempted, and no other goal's status moves. -/
lemma accept_new_goal_statuses {s : SrvState} {n : Nat}
    (h1 : s.newGoal = true) (hn : s.nextGoal = some n) :
    (s.statuses n = .pending → (accept_new_goal s).statuses n = .active) ∧
    (∀ i, i ≠ n → s.currentGoal ≠ some i →
      (accept_new_goal s).statuses i = s.statuses i) ∧
    (∀ c, s.currentGoal = some c → is_active s = true → c ≠ n →
      (accept_new_goal s).statuses c = .preempted) := by
  have h2 : s.nextGoal ≠ none := by rw [hn]; exact Option.some_ne_none n
  have hcur : (accept_promote (accept_cancel_step s)).currentGoal = some n := by
    rw [accept_promote_currentGoal, accept_cancel_step_nextGoal, hn]
  unfold accept_new_goal
  rw [if_neg (by simp [h1, h2]), hcur]
  refine ⟨?_, ?_, ?_⟩
  · intro hpend
    have hst : (accept_promote (accept_cancel_step s)).statuses n =
        GoalStatus.pending := by
      rw [accept_promote_statuses, accept_cancel_step_statuses_next hn, hpend]
    exact set_accepted_statuses_self hst
  · intro i hin hci
    rw [set_accepted_statuses_of_ne hin, accept_promote_statuses,
      accept_cancel_step_statuses_of_ne hci]
  · intro c hc hact hcn
    have hcanc : (accept_cancel_step s).statuses c = .preempted :=
      accept_cancel_step_current hc hact
        (by rw [hc, hn]; exact fun h => hcn (Option.some_injective Nat h))
    rw [set_accepted_statuses_of_ne hcn, accept_promote_statuses, hcanc]

lemma get_next_goal_empty {s : SrvState} (h : s.executionQueue = []) :
    get_next_goal s = (s, s.currentGoal) := by
  unfold get_next_goal
  rw [h]

lemma get_next_goal_cons_eq {s : SrvState} {g : Nat} {rest : List Nat}
    (hq : s.executionQueue = g :: rest) :
    get_next_goal s =
      ({ accept_new_goal
           { s with nextGoal := some g, newGoal := true,
                    newGoalPreemptRequest := false } with
         executionQueue :=
           (accept_new_goal
             { s with nextGoal := some g, newGoal := true,
                      newGoalPreemptRequest := false }).executionQueue.tail },
       (accept_new_goal
         { s with nextGoal := some g, newGoal := true,
                  newGoalPreemptRequest := false }).currentGoal) := by
  unfold get_next_goal
  rw [hq]

/-- Full description of a promotion from a non-empty queue. -/
lemma get_next_goal_spec {s : SrvState} {g : Nat} {rest : List Nat}
    (hq : s.executionQueue = g :: rest) :
    (get_next_goal s).1.currentGoal = some g ∧
    (get_next_goal s).2 = some g ∧
    (get_next_goal s).1.executionQueue = rest ∧
    (get_next_goal s).1.preemptRequest = false ∧
    (get_next_goal s).1.newGoalPreemptRequest = false ∧
    (get_next_goal s).1.newGoal = false ∧
    (s.statuses g = .pending → (get_next_goal s).1.statuses g = .active) ∧
    (∀ i, i ≠ g → s.currentGoal ≠ some i →
      (get_next_goal s).1.statuses i = s.statuses i) ∧
    (∀ c, s.currentGoal = some c → is_active s = true → c ≠ g →
      (get_next_goal s).1.statuses c = .preempted) := by
  have h1 : ({ s with nextGoal := some g, newGoal := true,
                      newGoalPreemptRequest := false } : SrvState).newGoal =
      true := rfl
  have hn : ({ s with nextGoal := some g, newGoal := true,
                      newGoalPreemptRequest := false } : SrvState).nextGoal =
      some g := rfl
  have hf := accept_new_goal_fields h1 (by rw [hn]; exact Option.some_ne_none g)
  have hs := accept_new_goal_statuses h1 hn
  rw [get_next_goal_cons_eq hq]
  refine ⟨?_, ?_, ?_, ?_, ?_, ?_, ?_, ?_, ?_⟩
  · rw [hf.1]
  · rw [hf.1]
  · rw [hf.2.2.2.2.2.1]
    show s.executionQueue.tail = rest
    rw [hq]
    rfl
  · rw [hf.2.2.2.1]
  · exact hf.2.2.2.2.1
  · exact hf.2.2.1
  · exact hs.1
  · intro i hig hci
    exact hs.2.1 i hig hci
  · intro c hcc hact hcg
    exact hs.2.2 c hcc hact hcg

/-! ### Preservation of the single-active invariant -/

lemma accept_new_goal_guard {s : SrvState}
    (hg : s.newGoal = false ∨ s.nextGoal = none) :
    accept_new_goal s = s := by
  unfold accept_new_goal
  rw [if_pos hg]

lemma accept_new_goal_statuses_inactive {s : SrvState} {n : Nat}
    (h1 : s.newGoal = true) (hn : s.nextGoal = some n)
    (hact : is_active s = false) :
    ∀ i, i ≠ n → (accept_new_goal s).statuses i = s.statuses i := by
  have h2 : s.nextGoal ≠ none := by rw [hn]; exact Option.some_ne_none n
  have hcanc : accept_cancel_step s = s := by
    refine accept_cancel_step_of_neg ?_
    rintro ⟨ha, -, -⟩
    rw [hact] at ha
    cases ha
  have hcur : (accept_promote (accept_cancel_step s)).currentGoal = some n := by
    rw [accept_promote_currentGoal, accept_cancel_step_nextGoal, hn]
  unfold accept_new_goal
  rw [if_neg (by simp [h1, h2]), hcur]
  intro i hin
  rw [set_accepted_statuses_of_ne hin, accept_promote_statuses, hcanc]

lemma internal_goal_callback_currentGoal (s : SrvState) (stamp : Nat) :
    (internal_goal_callback s stamp).currentGoal = s.currentGoal := by
  unfold internal_goal_callback
  split
  · rfl
  · simp [ServerGoalHandle.set_canceled, submitFresh]

lemma internal_goal_callback_nextGoal (s : SrvState) (stamp : Nat) :
    (internal_goal_callback s stamp).nextGoal = s.nextGoal := by
  unfold internal_goal_callback
  split
  · rfl
  · simp [ServerGoalHandle.set_canceled, submitFresh]

lemma internal_goal_callback_statuses_old {s : SrvState} {stamp i : Nat}
    (hig : i ≠ s.nGoals) :
    (internal_goal_callback s stamp).statuses i = s.statuses i := by
  unfold internal_goal_callback
  split
  · simp [submitFresh, hig]
  · rw [ServerGoalHandle.set_canceled,
      applyTransition_statuses_of_ne cancelTrans _ _ _ i hig]
    simp [submitFresh, hig]

lemma internal_goal_callback_statuses_fresh (s : SrvState) (stamp : Nat) :
    statusActive ((internal_goal_callback s stamp).statuses s.nGoals) =
      false := by
  unfold internal_goal_callback
  split
  · simp [submitFresh, statusActive]
  · simp [ServerGoalHandle.set_canceled, applyTransition, setStatusText,
      submitFresh, cancelTrans, statusActive]

lemma uniqueActive_submit {s : SrvState} (h : UniqueActive s) (stamp : Nat) :
    UniqueActive (internal_goal_callback s stamp) := by
  intro i hi
  rw [internal_goal_callback_currentGoal]
  by_cases hig : i = s.nGoals
  · subst hig
    rw [internal_goal_callback_statuses_fresh] at hi
    cases hi
  · rw [internal_goal_callback_statuses_old hig] at hi
    exact h i hi

lemma internal_preempt_callback_statuses (s : SrvState) (j : Nat) :
    (internal_preempt_callback s j).1.statuses = s.statuses := by
  unfold internal_preempt_callback
  split
  · rfl
  · split
    · rfl
    · rfl

lemma internal_preempt_callback_currentGoal (s : SrvState) (j : Nat) :
    (internal_preempt_callback s j).1.currentGoal = s.currentGoal := by
  unfold internal_preempt_callback
  split
  · rfl
  · split
    · rfl
    · rfl

lemma uniqueActive_preempt {s : SrvState} (h : UniqueActive s) (j : Nat) :
    UniqueActive (internal_preempt_callback s j).1 := by
  intro i hi
  rw [internal_preempt_callback_currentGoal]
  rw [internal_preempt_callback_statuses] at hi
  exact h i hi

lemma uniqueActive_accept {s : SrvState} (h : UniqueActive s) :
    UniqueActive (accept_new_goal s) := by
  by_cases hg : s.newGoal = false ∨ s.nextGoal = none
  · rw [accept_new_goal_guard hg]
    exact h
  · push_neg at hg
    have h1 : s.newGoal = true := by
      cases hb : s.newGoal
      · exact absurd hb hg.1
      · rfl
    obtain ⟨n, hn⟩ := Option.ne_none_iff_exists'.mp hg.2
    have hfields := accept_new_goal_fields h1 hg.2
    have hstat := accept_new_goal_statuses h1 hn
    intro i hi
    rw [hfields.1, hn]
    by_cases hin : i = n
    · rw [hin]
    · exfalso
      by_cases hci : s.currentGoal = some i
      · cases hact : is_active s with
        | true =>
          have hpre := hstat.2.2 i hci hact hin
          rw [hpre] at hi
          cases hi
        | false =>
          rw [accept_new_goal_statuses_inactive h1 hn hact i hin] at hi
          have : is_active s = true := is_active_iff.mpr ⟨i, hci, hi⟩
          rw [hact] at this
          cases this
      · rw [hstat.2.1 i hin hci] at hi
        exact hci (h i hi)

lemma uniqueActive_promote {s : SrvState} (h : UniqueActive s) :
    UniqueActive (get_next_goal s).1 := by
  cases hq : s.executionQueue with
  | nil =>
    have he : (get_next_goal s).1 = s := by rw [get_next_goal_empty hq]
    rw [he]
    exact h
  | cons g rest =>
    have h' : UniqueActive
        { s with nextGoal := some g, newGoal := true,
                 newGoalPreemptRequest := false } :=
      fun j hj => h j hj
    rw [get_next_goal_cons_eq hq]
    intro i hi
    exact uniqueActive_accept h' i hi

lemma uniqueActive_applyTransition {f : GoalStatus → Option GoalStatus}
    (hf : ∀ a b, f a = some b → statusActive b = false) {s : SrvState}
    {h : Option Nat} {text : String} (hu : UniqueActive s) :
    UniqueActive (applyTransition f s h text) := by
  intro i hi
  rw [applyTransition_currentGoal]
  exact hu i (statusActive_of_applyTransition hf hi)

lemma uniqueActive_reject_all {s : SrvState} (hu : UniqueActive s)
    (t : String) : UniqueActive (MultiGoalActionServer.reject_all s t) := by
  rw [reject_all_eq_drainFold]
  intro i hi
  show (drainFold rejectTrans t s.executionQueue s).currentGoal = some i
  rw [drainFold_currentGoal]
  exact hu i (drainFold_not_active rejectTrans_not_active t _ s hi)

lemma uniqueActive_cancel_all {s : SrvState} (hu : UniqueActive s)
    (t : String) : UniqueActive (MultiGoalActionServer.cancel_all s t) := by
  rw [cancel_all_eq_drainFold]
  intro i hi
  show (drainFold cancelTrans t s.executionQueue s).currentGoal = some i
  rw [drainFold_currentGoal]
  exact hu i (drainFold_not_active cancelTrans_not_active t _ s hi)

lemma uniqueActive_set_succeeded {Res : Type} [Inhabited Res] {s : SrvState}
    (hu : UniqueActive s) (r : Option Res) (t : String) :
    UniqueActive (set_succeeded s r t).1 := by
  show UniqueActive (applyTransition succeedTrans s s.currentGoal t)
  exact uniqueActive_applyTransition succeedTrans_not_active hu

lemma uniqueActive_set_aborted {Res : Type} [Inhabited Res] {s : SrvState}
    (hu : UniqueActive s) (r : Option Res) (t : String) :
    UniqueActive (set_aborted s r t).1 := by
  show UniqueActive (MultiGoalActionServer.reject_all
    (applyTransition abortTrans s s.currentGoal t)
    "This goal was rejected and cleared from the execution queue.")
  exact uniqueActive_reject_all
    (uniqueActive_applyTransition abortTrans_not_active hu) _

lemma uniqueActive_set_preempted {Res : Type} [Inhabited Res] {s : SrvState}
    (hu : UniqueActive s) (r : Option Res) (t : String) :
    UniqueActive (set_preempted s r t).1 := by
  show UniqueActive (MultiGoalActionServer.cancel_all
    (applyTransition cancelTrans s s.currentGoal t)
    "This goal was rejected and cleared from the execution queue.")
  exact uniqueActive_cancel_all
    (uniqueActive_applyTransition cancelTrans_not_active hu) _

lemma uniqueActive_reachable : ∀ s, Reachable s → UniqueActive s := by
  intro s hs
  induction hs with
  | init =>
    intro i hi
    simp [initState, statusActive] at hi
  | submit stamp _ ih => exact uniqueActive_submit ih stamp
  | preempt j _ ih => exact uniqueActive_preempt ih j
  | promote _ ih => exact uniqueActive_promote ih
  | accept _ ih => exact uniqueActive_accept ih
  | succeed r t _ ih => exact uniqueActive_set_succeeded ih r t
  | abort r t _ ih => exact uniqueActive_set_aborted ih r t
  | preempted_op r t _ ih => exact uniqueActive_set_preempted ih r t

/-! ### Behaviour of the terminal-status operations -/

lemma applyTransition_statuses_stable {f : GoalStatus → Option GoalStatus}
    {v : GoalStatus} (hfv : f v = none) {s : SrvState} {h : Option Nat}
    {text : String} {i : Nat} (hv : s.statuses i = v) :
    (applyTransition f s h text).statuses i = v := by
  cases h with
  | none => exact hv
  | some j =>
    by_cases hij : i = j
    · subst hij
      rw [applyTransition_statuses_self_of_none (by rw [hv]; exact hfv)]
      exact hv
    · rw [applyTransition_statuses_of_ne f s j text i hij]
      exact hv

lemma reject_all_statuses (s : SrvState) (t : String) :
    (MultiGoalActionServer.reject_all s t).statuses =
      (drainFold rejectTrans t s.executionQueue s).statuses := by
  rw [reject_all_eq_drainFold]

lemma reject_all_texts (s : SrvState) (t : String) :
    (MultiGoalActionServer.reject_all s t).texts =
      (drainFold rejectTrans t s.executionQueue s).texts := by
  rw [reject_all_eq_drainFold]

lemma reject_all_queue (s : SrvState) (t : String) :
    (MultiGoalActionServer.reject_all s t).executionQueue = [] := by
  rw [reject_all_eq_drainFold]

lemma cancel_all_statuses (s : SrvState) (t : String) :
    (MultiGoalActionServer.cancel_all s t).statuses =
      (drainFold cancelTrans t s.executionQueue s).statuses := by
  rw [cancel_all_eq_drainFold]

lemma cancel_all_texts (s : SrvState) (t : String) :
    (MultiGoalActionServer.cancel_all s t).texts =
      (drainFold cancelTrans t s.executionQueue s).texts := by
  rw [cancel_all_eq_drainFold]

lemma cancel_all_queue (s : SrvState) (t : String) :
    (MultiGoalActionServer.cancel_all s t).executionQueue = [] := by
  rw [cancel_all_eq_drainFold]

lemma set_aborted_queue_empty {Res : Type} [Inhabited Res] (s : SrvState)
    (r : Option Res) (t : String) :
    (set_aborted s r t).1.executionQueue = [] :=
  reject_all_queue _ _

lemma set_preempted_queue_empty {Res : Type} [Inhabited Res] (s : SrvState)
    (r : Option Res) (t : String) :
    (set_preempted s r t).1.executionQueue = [] :=
  cancel_all_queue _ _

/-- `set_aborted` drives an active current goal to `aborted` and records
the given text, whatever else is in the queue. -/
lemma set_aborted_current {Res : Type} [Inhabited Res] {s : SrvState}
    {c : Nat} (hc : s.currentGoal = some c)
    (hact : statusActive (s.statuses c) = true) (r : Option Res)
    (t : String) :
    (set_aborted s r t).1.statuses c = .aborted ∧
    (set_aborted s r t).1.texts c = t := by
  have hX : (applyTransition abortTrans s s.currentGoal t).statuses c =
      .aborted := by
    rw [hc]
    exact applyTransition_statuses_self_of_some (abortTrans_of_active hact)
  have hXt : (applyTransition abortTrans s s.currentGoal t).texts c = t := by
    rw [hc]
    exact applyTransition_texts_self_of_some (abortTrans_of_active hact)
  have hstab := drainFold_stable (show rejectTrans .aborted = none from rfl)
    "This goal was rejected and cleared from the execution queue."
    (applyTransition abortTrans s s.currentGoal t).executionQueue
    (applyTransition abortTrans s s.currentGoal t) hX
  constructor
  · show (MultiGoalActionServer.reject_all
      (applyTransition abortTrans s s.currentGoal t)
      "This goal was rejected and cleared from the execution queue.").statuses
        c = .aborted
    rw [reject_all_statuses]
    exact hstab.1
  · show (MultiGoalActionServer.reject_all
      (applyTransition abortTrans s s.currentGoal t)
      "This goal was rejected and cleared from the execution queue.").texts
        c = t
    rw [reject_all_texts, hstab.2]
    exact hXt

/-- `set_preempted` drives an active current goal to `preempted` and
records the given text. -/
lemma set_preempted_current {Res : Type} [Inhabited Res] {s : SrvState}
    {c : Nat} (hc : s.currentGoal = some c)
    (hact : statusActive (s.statuses c) = true) (r : Option Res)
    (t : String) :
    (set_preempted s r t).1.statuses c = .preempted ∧
    (set_preempted s r t).1.texts c = t := by
  have hX : (applyTransition cancelTrans s s.currentGoal t).statuses c =
      .preempted := by
    rw [hc]
    exact applyTransition_statuses_self_of_some (cancelTrans_of_active hact)
  have hXt : (applyTransition cancelTrans s s.currentGoal t).texts c = t := by
    rw [hc]
    exact applyTransition_texts_self_of_some (cancelTrans_of_active hact)
  have hstab := drainFold_stable (show cancelTrans .preempted = none from rfl)
    "This goal was rejected and cleared from the execution queue."
    (applyTransition cancelTrans s s.currentGoal t).executionQueue
    (applyTransition cancelTrans s s.currentGoal t) hX
  constructor
  · show (MultiGoalActionServer.cancel_all
      (applyTransition cancelTrans s s.currentGoal t)
      "This goal was rejected and cleared from the execution queue.").statuses
        c = .preempted
    rw [cancel_all_statuses]
    exact hstab.1
  · show (MultiGoalActionServer.cancel_all
      (applyTransition cancelTrans s s.currentGoal t)
      "This goal was rejected and cleared from the execution queue.").texts
        c = t
    rw [cancel_all_texts, hstab.2]
    exact hXt

/-- Every pending goal in the queue ends `rejected` after `set_aborted`. -/
lemma set_aborted_queued {Res : Type} [Inhabited Res] {s : SrvState} {i : Nat}
    (hi : i ∈ s.executionQueue) (hp : s.statuses i = .pending)
    (r : Option Res) (t : String) :
    (set_aborted s r t).1.statuses i = .rejected := by
  have hX : (applyTransition abortTrans s s.currentGoal t).statuses i =
      .pending :=
    applyTransition_statuses_stable (show abortTrans .pending = none from rfl)
      hp
  have hq : (applyTransition abortTrans s s.currentGoal t).executionQueue =
      s.executionQueue := applyTransition_executionQueue _ _ _ _
  show (MultiGoalActionServer.reject_all
    (applyTransition abortTrans s s.currentGoal t)
    "This goal was rejected and cleared from the execution queue.").statuses
      i = .rejected
  rw [reject_all_statuses]
  exact drainFold_mem (show rejectTrans .pending = some .rejected from rfl)
    (show rejectTrans .rejected = none from rfl) _ _ _ (by rw [hq]; exact hi)
    hX

/-- Every pending goal in the queue ends `recalled` after `set_preempted`
on an active current goal. -/
lemma set_preempted_queued {Res : Type} [Inhabited Res] {s : SrvState}
    {c i : Nat} (hc : s.currentGoal = some c)
    (hact : statusActive (s.statuses c) = true) (hi : i ∈ s.executionQueue)
    (hp : s.statuses i = .pending) (r : Option Res) (t : String) :
    (set_preempted s r t).1.statuses i = .recalled := by
  have hic : i ≠ c := by
    intro h
    subst h
    rw [hp] at hact
    simp [statusActive] at hact
  have hX : (applyTransition cancelTrans s s.currentGoal t).statuses i =
      .pending := by
    rw [hc, applyTransition_statuses_of_ne cancelTrans s c t i hic]
    exact hp
  have hq : (applyTransition cancelTrans s s.currentGoal t).executionQueue =
      s.executionQueue := applyTransition_executionQueue _ _ _ _
  show (MultiGoalActionServer.cancel_all
    (applyTransition cancelTrans s s.currentGoal t)
    "This goal was rejected and cleared from the execution queue.").statuses
      i = .recalled
  rw [cancel_all_statuses]
  exact drainFold_mem (show cancelTrans .pending = some .recalled from rfl)
    (show cancelTrans .recalled = none from rfl) _ _ _ (by rw [hq]; exact hi)
    hX

lemma handleStamp_submitFresh {s : SrvState} {stamp : Nat} {c : Nat}
    (hlt : c < s.nGoals) :
    handleStamp (submitFresh s stamp) (some c) = handleStamp s (some c) := by
  simp [handleStamp, submitFresh, Nat.ne_of_lt hlt]

/-- Creating the fresh handle does not change the admission test, as long
as the current and next handles refer to goals already in the store. -/
lemma admissible_submitFresh {s : SrvState} {stamp : Nat}
    (hwfc : ∀ i, s.currentGoal = some i → i < s.nGoals)
    (hwfn : ∀ i, s.nextGoal = some i → i < s.nGoals) :
    admissible (submitFresh s stamp) stamp ↔ admissible s stamp := by
  unfold admissible
  have h1 : (submitFresh s stamp).currentGoal = s.currentGoal := rfl
  have h2 : (submitFresh s stamp).nextGoal = s.nextGoal := rfl
  rw [h1, h2]
  cases hc : s.currentGoal with
  | none =>
    cases hn : s.nextGoal with
    | none => exact Iff.rfl
    | some n =>
      rw [handleStamp_submitFresh (hwfn n hn)]
      exact Iff.rfl
  | some c =>
    cases hn : s.nextGoal with
    | none =>
      rw [handleStamp_submitFresh (hwfc c hc)]
      exact Iff.rfl
    | some n =>
      rw [handleStamp_submitFresh (hwfc c hc),
        handleStamp_submitFresh (hwfn n hn)]

/-! ### The claims -/

/-- C1: for every sequence of goal submissions, preempt requests,
promotions and terminal-status operations (i.e. in every `Reachable`
state), at most one goal has status `ACTIVE`/`PREEMPTING`, and any goal
with such a status is the goal held by the current-goal handle: a
promotion only activates the goal it makes current, after transitioning a
distinct still-active predecessor to the terminal `PREEMPTED` status. -/
theorem single_active_invariant (s : SrvState) (hs : Reachable s) :
    (∀ i, statusActive (s.statuses i) = true → s.currentGoal = some i) ∧
    (∀ i j, statusActive (s.statuses i) = true →
      statusActive (s.statuses j) = true → i = j) := by
  refine ⟨uniqueActive_reachable s hs, ?_⟩
  intro i j hi hj
  have h1 := uniqueActive_reachable s hs i hi
  have h2 := uniqueActive_reachable s hs j hj
  exact Option.some.inj (h1.symm.trans h2)

theorem single_active_invariant_witness :
    statusActive
        ((get_next_goal (internal_goal_callback initState 0)).1.statuses 0) =
      true ∧
    (get_next_goal (internal_goal_callback initState 0)).1.currentGoal =
      some 0 :=
  ⟨by decide,
    (single_active_invariant _
      (Reachable.promote (Reachable.submit 0 Reachable.init))).1 0
      (by decide)⟩

/-- C2: a submitted goal is appended to the execution queue iff its stamp
is not older than the current goal's stamp (when one exists) and not older
than the next-goal slot's stamp (when occupied); ties are admitted.
Otherwise it is immediately cancelled, ending `RECALLED`, and is never
placed in the queue (hence never promoted, since promotion only takes
goals from the queue).  The well-formedness hypotheses say that every goal
handle in play refers to a goal in the store. -/
theorem goal_admission (s : SrvState) (stamp : Nat)
    (hwf : ∀ i ∈ s.executionQueue, i < s.nGoals)
    (hwfc : ∀ i, s.currentGoal = some i → i < s.nGoals)
    (hwfn : ∀ i, s.nextGoal = some i → i < s.nGoals) :
    (admissible s stamp →
      (internal_goal_callback s stamp).executionQueue =
        s.executionQueue ++ [s.nGoals] ∧
      (internal_goal_callback s stamp).statuses s.nGoals = .pending) ∧
    (¬ admissible s stamp →
      (internal_goal_callback s stamp).statuses s.nGoals = .recalled ∧
      (internal_goal_callback s stamp).executionQueue = s.executionQueue ∧
      s.nGoals ∉ (internal_goal_callback s stamp).executionQueue) := by
  constructor
  · intro hadm
    have hadm' : admissible (submitFresh s stamp) stamp :=
      (admissible_submitFresh hwfc hwfn).mpr hadm
    unfold internal_goal_callback
    rw [if_pos hadm']
    constructor
    · rfl
    · show (submitFresh s stamp).statuses s.nGoals = .pending
      simp [submitFresh]
  · intro hnadm
    have hnadm' : ¬ admissible (submitFresh s stamp) stamp := fun h =>
      hnadm ((admissible_submitFresh hwfc hwfn).mp h)
    have hp : (submitFresh s stamp).statuses s.nGoals = .pending := by
      simp [submitFresh]
    unfold internal_goal_callback
    rw [if_neg hnadm']
    refine ⟨?_, ?_, ?_⟩
    · rw [ServerGoalHandle.set_canceled,
        applyTransition_statuses_self_of_some (by rw [hp]; rfl)]
    · rw [ServerGoalHandle.set_canceled, applyTransition_executionQueue]
      rfl
    · rw [ServerGoalHandle.set_canceled, applyTransition_executionQueue]
      intro hmem
      have : s.nGoals < s.nGoals := hwf _ hmem
      exact absurd this (Nat.lt_irrefl _)

theorem goal_admission_witness :
    ((internal_goal_callback stateB 5).executionQueue = [0, 2] ∧
     (internal_goal_callback stateB 5).statuses 2 = .pending) ∧
    ((internal_goal_callback stateB 3).statuses 2 = .recalled ∧
     (internal_goal_callback stateB 3).executionQueue = [0] ∧
     2 ∉ (internal_goal_callback stateB 3).executionQueue) := by
  have hwf : ∀ i ∈ stateB.executionQueue, i < stateB.nGoals := by decide
  have hwfc : ∀ i, stateB.currentGoal = some i → i < stateB.nGoals := by
    intro i hi
    have h : some 1 = some i := hi
    injection h with h2
    subst h2
    decide
  have hwfn : ∀ i, stateB.nextGoal = some i → i < stateB.nGoals := by
    intro i hi
    have h : (none : Option Nat) = some i := hi
    simp at h
  constructor
  · exact (goal_admission stateB 5 hwf hwfc hwfn).1 (by decide)
  · exact (goal_admission stateB 3 hwf hwfc hwfn).2 (by decide)

/-- C3: with an active current goal and pending goals in the execution
queue, `set_aborted` drives the current goal to `ABORTED` and every queued
goal to `REJECTED`, emptying the queue; `set_preempted` drives the current
goal to the cancel terminal status (`PREEMPTED`) and every queued goal to
its cancel terminal status (`RECALLED` for a pending goal), emptying the
queue. -/
theorem terminal_flush {Res : Type} [Inhabited Res] (s : SrvState) {c : Nat}
    (hc : s.currentGoal = some c)
    (hact : statusActive (s.statuses c) = true)
    (hq : ∀ i ∈ s.executionQueue, s.statuses i = GoalStatus.pending)
    (r : Option Res) (t : String) :
    ((set_aborted s r t).1.executionQueue = [] ∧
     (set_aborted s r t).1.statuses c = .aborted ∧
     ∀ i ∈ s.executionQueue, (set_aborted s r t).1.statuses i = .rejected) ∧
    ((set_preempted s r t).1.executionQueue = [] ∧
     (set_preempted s r t).1.statuses c = .preempted ∧
     ∀ i ∈ s.executionQueue,
       (set_preempted s r t).1.statuses i = .recalled) := by
  refine ⟨⟨set_aborted_queue_empty s r t,
           (set_aborted_current hc hact r t).1, ?_⟩,
          ⟨set_preempted_queue_empty s r t,
           (set_preempted_current hc hact r t).1, ?_⟩⟩
  · intro i hi
    exact set_aborted_queued hi (hq i hi) r t
  · intro i hi
    exact set_preempted_queued hc hact hi (hq i hi) r t

theorem terminal_flush_witness :
    ((set_aborted stateB (none : Option Nat) "").1.executionQueue = [] ∧
     (set_aborted stateB (none : Option Nat) "").1.statuses 1 = .aborted ∧
     (set_aborted stateB (none : Option Nat) "").1.statuses 0 = .rejected) ∧
    ((set_preempted stateB (none : Option Nat) "").1.statuses 1 =
       .preempted ∧
     (set_preempted stateB (none : Option Nat) "").1.statuses 0 =
       .recalled) := by
  have h := terminal_flush stateB (show stateB.currentGoal = some 1 from rfl)
    (by decide) (by decide) (none : Option Nat) ""
  exact ⟨⟨h.1.1, h.1.2.1, h.1.2.2 0 (by decide)⟩,
         ⟨h.2.2.1, h.2.2.2 0 (by decide)⟩⟩

/-- C4: `set_succeeded` terminates only the current goal and does not
flush the execution queue: the queue contents, the statuses of all queued
(pending) goals, and the next-goal slot are unchanged, so queued goals
remain eligible for subsequent promotion. -/
theorem set_succeeded_frame {Res : Type} [Inhabited Res] (s : SrvState)
    (r : Option Res) (t : String)
    (hq : ∀ i ∈ s.executionQueue, s.statuses i = GoalStatus.pending) :
    (set_succeeded s r t).1.executionQueue = s.executionQueue ∧
    (∀ i ∈ s.executionQueue,
      (set_succeeded s r t).1.statuses i = s.statuses i) ∧
    (set_succeeded s r t).1.nextGoal = s.nextGoal ∧
    (set_succeeded s r t).1.newGoal = s.newGoal ∧
    (set_succeeded s r t).1.nGoals = s.nGoals := by
  refine ⟨?_, ?_, ?_, ?_, ?_⟩
  · show (applyTransition succeedTrans s s.currentGoal t).executionQueue =
      s.executionQueue
    exact applyTransition_executionQueue _ _ _ _
  · intro i hi
    show (applyTransition succeedTrans s s.currentGoal t).statuses i =
      s.statuses i
    rw [hq i hi]
    exact applyTransition_statuses_stable
      (show succeedTrans .pending = none from rfl) (hq i hi)
  · show (applyTransition succeedTrans s s.currentGoal t).nextGoal =
      s.nextGoal
    exact applyTransition_nextGoal _ _ _ _
  · show (applyTransition succeedTrans s s.currentGoal t).newGoal = s.newGoal
    exact applyTransition_newGoal _ _ _ _
  · show (applyTransition succeedTrans s s.currentGoal t).nGoals = s.nGoals
    exact applyTransition_nGoals _ _ _ _

theorem set_succeeded_frame_witness :
    (set_succeeded stateB (none : Option Nat) "").1.executionQueue = [0] ∧
    (set_succeeded stateB (none : Option Nat) "").1.statuses 0 = .pending := by
  have h := set_succeeded_frame stateB (none : Option Nat) "" (by decide)
  exact ⟨h.1, h.2.1 0 (by decide)⟩

/-- C5 (counterexample): in a state whose next-goal preempt flag is set
and whose queue is non-empty, running the promotion (`get_next_goal`)
leaves `is_preempt_requested()` FALSE: `get_next_goal` resets
`new_goal_preempt_request` before `accept_new_goal` transfers it, so the
pending flag is discarded, not moved into the live flag as the claim
states. -/
theorem promotion_preempt_counterexample :
    stateQP.newGoalPreemptRequest = true ∧
    stateQP.executionQueue ≠ [] ∧
    (get_next_goal stateQP).1.currentGoal = some 0 ∧
    statusActive ((get_next_goal stateQP).1.statuses 0) = true ∧
    is_preempt_requested (get_next_goal stateQP).1 = false ∧
    (get_next_goal stateQP).1.newGoalPreemptRequest = false := by
  decide

/-- C5 (amended): promotion via `get_next_goal` clears the next-goal
preempt flag when it loads the queue head into the next slot, before
`accept_new_goal` transfers it; hence after a promotion from a non-empty
queue `is_preempt_requested()` is false and the next-goal preempt flag is
cleared, whatever the flag's prior value.  The move of a pending next-goal
preempt flag into the live flag happens only inside `accept_new_goal`
itself (for a flag raised after the next slot was loaded). -/
theorem promotion_preempt_flag_cleared :
    (∀ s : SrvState, s.executionQueue ≠ [] →
      is_preempt_requested (get_next_goal s).1 = false ∧
      (get_next_goal s).1.newGoalPreemptRequest = false) ∧
    (∀ s : SrvState, s.newGoal = true → s.nextGoal ≠ none →
      (accept_new_goal s).preemptRequest = s.newGoalPreemptRequest ∧
      (accept_new_goal s).newGoalPreemptRequest = false) := by
  constructor
  · intro s hne
    cases hq : s.executionQueue with
    | nil => exact absurd hq hne
    | cons g rest =>
      have h := get_next_goal_spec hq
      exact ⟨h.2.2.2.1, h.2.2.2.2.1⟩
  · intro s h1 h2
    have hf := accept_new_goal_fields h1 h2
    exact ⟨hf.2.2.2.1, hf.2.2.2.2.1⟩

theorem promotion_preempt_flag_cleared_witness :
    is_preempt_requested (get_next_goal stateQ).1 = false ∧
    (accept_new_goal
      { stateQ with newGoal := true, nextGoal := some 0 }).preemptRequest =
      false := by
  constructor
  · exact (promotion_preempt_flag_cleared.1 stateQ (by decide)).1
  · exact (promotion_preempt_flag_cleared.2
      { stateQ with newGoal := true, nextGoal := some 0 } rfl
      (by decide)).1

/-- C6: promotion (`get_next_goal`, which realizes `accept_next` via
`accept_new_goal`): with a non-empty queue whose head is pending, the head
becomes the current goal and `ACTIVE`, a pre-existing distinct active
current goal is transitioned to the terminal `PREEMPTED` status, the head
is popped, and the (new) current goal is returned; with an empty queue and
no current goal it returns none. -/
theorem promotion_spec :
    (∀ (s : SrvState) (g : Nat) (rest : List Nat),
      s.executionQueue = g :: rest → s.statuses g = .pending →
      (get_next_goal s).1.currentGoal = some g ∧
      (get_next_goal s).2 = some g ∧
      (get_next_goal s).1.executionQueue = rest ∧
      (get_next_goal s).1.statuses g = .active ∧
      (∀ c, s.currentGoal = some c → is_active s = true → c ≠ g →
        (get_next_goal s).1.statuses c = .preempted)) ∧
    (∀ s : SrvState, s.executionQueue = [] → s.currentGoal = none →
      (get_next_goal s).2 = none) := by
  constructor
  · intro s g rest hq hp
    obtain ⟨h1, h2, h3, _, _, _, h7, _, h9⟩ := get_next_goal_spec hq
    exact ⟨h1, h2, h3, h7 hp, h9⟩
  · intro s hq hc
    rw [get_next_goal_empty hq]
    exact hc

theorem promotion_spec_witness :
    ((get_next_goal stateB).1.currentGoal = some 0 ∧
     (get_next_goal stateB).1.statuses 0 = .active ∧
     (get_next_goal stateB).1.statuses 1 = .preempted ∧
     (get_next_goal stateB).1.executionQueue = []) ∧
    (get_next_goal initState).2 = none := by
  have h := promotion_spec.1 stateB 0 [] rfl (by decide)
  exact ⟨⟨h.1, h.2.2.2.1,
    h.2.2.2.2 1 rfl (by decide) (by decide), h.2.2.1⟩,
    promotion_spec.2 initState rfl rfl⟩

/-- C7: an inbound preempt whose target handle holds goal `j`: if the
current handle holds `j`, the live preempt flag is set and the registered
preempt callback (if any) is invoked synchronously (the boolean result);
otherwise if the next handle holds `j`, only the next-goal preempt flag is
set; otherwise the call is a no-op - the state is unchanged and no
callback is invoked. -/
theorem preempt_targeting (s : SrvState) (j : Nat) :
    (s.currentGoal = some j →
      (internal_preempt_callback s j).1 = { s with preemptRequest := true } ∧
      (internal_preempt_callback s j).2 = s.preemptCallbackRegistered) ∧
    (s.currentGoal ≠ some j → s.nextGoal = some j →
      (internal_preempt_callback s j).1 =
        { s with newGoalPreemptRequest := true } ∧
      (internal_preempt_callback s j).2 = false) ∧
    (s.currentGoal ≠ some j → s.nextGoal ≠ some j →
      (internal_preempt_callback s j).1 = s ∧
      (internal_preempt_callback s j).2 = false) := by
  unfold internal_preempt_callback
  refine ⟨?_, ?_, ?_⟩
  · intro hc
    rw [if_pos hc]
    exact ⟨rfl, rfl⟩
  · intro hc hn
    rw [if_neg hc, if_pos hn]
    exact ⟨rfl, rfl⟩
  · intro hc hn
    rw [if_neg hc, if_neg hn]
    exact ⟨rfl, rfl⟩

theorem preempt_targeting_witness :
    ((internal_preempt_callback stateB 1).1 =
       { stateB with preemptRequest := true } ∧
     (internal_preempt_callback stateB 1).2 = true) ∧
    ((internal_preempt_callback stateB 5).1 = stateB ∧
     (internal_preempt_callback stateB 5).2 = false) := by
  constructor
  · exact (preempt_targeting stateB 1).1 rfl
  · exact (preempt_targeting stateB 5).2.2 (by decide) (by decide)

/-- C8: one pass of the execute loop: if the user callback returns while
the goal is still active, the loop calls `set_aborted` with the diagnostic
text `"No terminal state was set."`; if the callback raises (`some msg`),
the exception is caught and the still-active goal is aborted with a text
containing the error; and the exception channel of the loop body is always
`none` - no exception propagates out of the loop. -/
theorem execute_loop_aborts
    (cb : SrvState → Option Nat → SrvState × Option String)
    (s s2 : SrvState) (msg : String) :
    (cb (get_next_goal s).1 (get_next_goal s).2 = (s2, none) →
      is_active (get_next_goal s).1 = true → is_active s2 = true →
      ∀ c, s2.currentGoal = some c →
        (executeLoopBody cb s).1.statuses c = .aborted ∧
        (executeLoopBody cb s).1.texts c = "No terminal state was set.") ∧
    (cb (get_next_goal s).1 (get_next_goal s).2 = (s2, some msg) →
      is_active (get_next_goal s).1 = true → is_active s2 = true →
      ∀ c, s2.currentGoal = some c →
        (executeLoopBody cb s).1.statuses c = .aborted ∧
        ∃ pre, (executeLoopBody cb s).1.texts c = pre ++ msg) ∧
    (executeLoopBody cb s).2 = none := by
  refine ⟨?_, ?_, ?_⟩
  · intro hcb hact1 hact2 c hc
    have hacts : statusActive (s2.statuses c) = true := by
      rcases is_active_iff.mp hact2 with ⟨c', hc', h'⟩
      have he : c = c' := Option.some.inj (hc.symm.trans hc')
      rw [he]
      exact h'
    have he : executeLoopBody cb s =
        ((set_aborted s2 (none : Option PUnit)
          "No terminal state was set.").1, none) := by
      unfold executeLoopBody
      rw [if_pos hact1, hcb]
      dsimp only
      rw [if_pos hact2]
    rw [he]
    exact ⟨(set_aborted_current hc hacts _ _).1,
           (set_aborted_current hc hacts _ _).2⟩
  · intro hcb hact1 hact2 c hc
    have hacts : statusActive (s2.statuses c) = true := by
      rcases is_active_iff.mp hact2 with ⟨c', hc', h'⟩
      have he : c = c' := Option.some.inj (hc.symm.trans hc')
      rw [he]
      exact h'
    have he : executeLoopBody cb s =
        ((set_aborted s2 (none : Option PUnit)
          ("Exception in execute callback: " ++ msg)).1, none) := by
      unfold executeLoopBody
      rw [if_pos hact1, hcb]
    rw [he]
    exact ⟨(set_aborted_current hc hacts _ _).1,
           ⟨"Exception in execute callback: ",
            (set_aborted_current hc hacts _ _).2⟩⟩
  · unfold executeLoopBody
    split
    · split
      · rfl
      · split
        · rfl
        · rfl
    · rfl

theorem execute_loop_aborts_witness :
    (executeLoopBody (fun st _ => (st, some "boom")) stateQ).1.statuses 0 =
      .aborted ∧
    (executeLoopBody (fun st _ => (st, some "boom")) stateQ).1.texts 0 =
      "Exception in execute callback: " ++ "boom" ∧
    (executeLoopBody (fun st _ => (st, some "boom")) stateQ).2 = none := by
  have h := execute_loop_aborts (fun st _ => (st, some "boom")) stateQ
    (get_next_goal stateQ).1 "boom"
  have h2 := h.2.1 rfl (by decide) (by decide) 0 (by decide)
  obtain ⟨ha, pre, hpre⟩ := h2
  exact ⟨ha, by decide, h.2.2⟩

/-- C9: calling `accept_new_goal` when no new goal is available (the
`new_goal` flag is false, or the next-goal handle holds no goal) logs an
error and is a no-op: the whole server state - current goal, next goal,
execution queue and all flags - is unchanged (and the call returns
nothing). -/
theorem accept_new_goal_noop (s : SrvState)
    (h : s.newGoal = false ∨ s.nextGoal = none) :
    accept_new_goal s = s :=
  accept_new_goal_guard h

theorem accept_new_goal_noop_witness :
    accept_new_goal initState = initState :=
  accept_new_goal_noop initState (Or.inl rfl)

/-- C10: each of `set_succeeded`, `set_aborted`, `set_preempted` replaces
a `none` result by the freshly default-constructed result of the action's
result type (`get_default_result`) before calling the goal handle; the
value passed to the handle (the second component) is therefore never
`none`. -/
theorem result_none_substitution {Res : Type} [Inhabited Res] (s : SrvState)
    (result : Option Res) (text : String) :
    ((set_succeeded s result text).2 =
       some (result.getD (get_default_result s)) ∧
     (set_aborted s result text).2 =
       some (result.getD (get_default_result s)) ∧
     (set_preempted s result text).2 =
       some (result.getD (get_default_result s))) ∧
    ((set_succeeded s result text).2.isSome = true ∧
     (set_aborted s result text).2.isSome = true ∧
     (set_preempted s result text).2.isSome = true) := by
  cases result <;>
    simp [set_succeeded, set_aborted, set_preempted, resolveResult]
